import Mathlib

/-!
Verification of the gateway/supervisor in src/server.js (and its duplicate
src/unnamed/part_000): an Express app that reverse-proxies requests under
the /api mount to an internally spawned gunicorn backend on port 8081 and
serves static files for all other requests.

The embedding is shallow: the program's wiring (constants, middleware
order, spawn arguments, attached child-process observers, and the
listen-then-spawn startup sequence) is transcribed into Lean definitions,
and the behaviour of the three libraries the program configures (the
Express router's mount matching, serve-static file resolution, and
http-proxy-middleware forwarding and error handling) is modelled from
their documented semantics, parametrised exactly by the options the
program passes.
-/

/-- An HTTP request: method, URL path (no query string), query string,
headers (node lowercases header names) and raw body bytes. -/
structure HttpRequest where
  method : String
  path : String
  query : String
  headers : List (String × String)
  body : List Nat
deriving DecidableEq

/-- An HTTP response: status code, headers and raw body bytes. -/
structure HttpResponse where
  status : Nat
  headers : List (String × String)
  body : List Nat
deriving DecidableEq

/-- Log level of a gateway log line: console.log is info, console.error is error. -/
inductive LogLevel where
  | info
  | error
deriving DecidableEq

/-- A JavaScript value that can hold the listening port: the expression
process.env.PORT || 3000 evaluates either to the environment string or to
the number 3000. -/
inductive JsPort where
  | str (s : String)
  | num (n : Nat)
deriving DecidableEq

/-- Observable events of the process: the listening socket being bound, a
log line, a child process being spawned, and the node process exiting. -/
inductive Event where
  | listenBound (port : JsPort)
  | logLine (level : LogLevel) (message : String)
  | spawned (cmd : String) (args : List String)
  | exited (code : Nat)
deriving DecidableEq

/-- The parent process environment, as a list of variable/value pairs. -/
abbrev Env := List (String × String)

/-- Environment lookup (process.env.X): first binding of the name, if any. -/
def envGet (e : Env) (k : String) : Option String :=
  (e.find? (fun kv => kv.1 == k)).map (fun kv => kv.2)

/-- An observer attached to the spawned child process, as registered by the
stdout data, stderr data and close listeners; each handler yields the list
of events its callback produces. -/
inductive ChildObserver where
  | stdoutData (handler : String → List Event)
  | stderrData (handler : String → List Event)
  | close (handler : Option Int → List Event)

/-- Which of the app's handlers ends up producing the response for a
request: the /api proxy middleware, the static-file middleware, or the
final not-found handler of Express. -/
inductive Handled where
  | apiProxy
  | staticFile
  | finalNotFound
deriving DecidableEq

/-- Express mount matching for app.use(mount, mw) (path-to-regexp with
end:false, the default caseSensitive:false): the mount path must be a
prefix of the request path, compared case-insensitively, and the boundary
must fall at the end of the path or at a path separator. -/
def mountMatches (mount path : String) : Bool :=
  let m := mount.data.map Char.toLower
  let p := path.data.map Char.toLower
  m.isPrefixOf p && (p.length == m.length || (p.drop m.length).head? == some '/')

/-- The claim-side reading of dispatch: a literal, case-sensitive
"the path begins with the characters of the mount" test. -/
def strBeginsWith (pre s : String) : Bool :=
  pre.data.isPrefixOf s.data

/-- Header lookup: value of the first header with the given name. -/
def headerGet (hs : List (String × String)) (k : String) : Option String :=
  (hs.find? (fun kv => kv.1 == k)).map (fun kv => kv.2)

/-- Replace a header: drop existing occurrences and append the new value. -/
def setHeader (hs : List (String × String)) (k v : String) : List (String × String) :=
  hs.filter (fun kv => !(kv.1 == k)) ++ [(k, v)]

/-- Options the program hands to createProxyMiddleware. -/
structure ProxyOptions where
  target : String
  changeOrigin : Bool
deriving DecidableEq

/-- The host (authority) part of an http:// target URL: the characters
after the 7-character scheme "http://". -/
def urlHost (t : String) : String :=
  String.mk (t.data.drop 7)

/-- http-proxy-middleware forwarding: the outbound request keeps the
method, full original path, query string and body; with changeOrigin
enabled the outgoing host header is rewritten to the target's host. -/
def hpmForward (opts : ProxyOptions) (req : HttpRequest) : HttpRequest :=
  { req with
    headers :=
      if opts.changeOrigin then setHeader req.headers "host" (urlHost opts.target)
      else req.headers }

/-- http-proxy-middleware's default error response when the backend
connection fails (for example ECONNREFUSED while the backend is not yet
started or has crashed): it writes status 504 and ends the response; the
short explanatory text body is not modelled. -/
def proxyErrorResponse : HttpResponse :=
  { status := 504, headers := [], body := [] }

/-- Bytes of a string, one code point per byte for the ASCII texts used here. -/
def strBytes (s : String) : List Nat :=
  s.data.map Char.toNat

/-- Express's final handler when no middleware produced a response: a 404
with a "Cannot METHOD url" body (the surrounding HTML boilerplate is not
modelled). -/
def express404 (req : HttpRequest) : HttpResponse :=
  { status := 404
  , headers := [("content-type", "text/html; charset=utf-8")]
  , body := strBytes ("Cannot " ++ req.method ++ " " ++ req.path ++
      (if req.query == "" then "" else "?" ++ req.query)) }

/-- serve-static path resolution: the URL path is taken relative to the
static root, and a path naming a directory (trailing slash, including "/")
resolves to the directory's index.html. -/
def resolvePath (p : String) : String :=
  let cs := match p.data with
    | '/' :: rest => rest
    | cs => cs
  if cs == [] || cs.getLast? == some '/' then String.mk cs ++ "index.html"
  else String.mk cs

/-- Extension of a file name: the characters after the last dot. -/
def extOf (s : String) : String :=
  String.mk ((s.data.reverse.takeWhile (fun c => !(c == '.'))).reverse)

/-- Content type inferred from the file extension (the mime lookup used by
serve-static, restricted to a representative table). -/
def mimeOf (s : String) : String :=
  match extOf s with
  | "html" => "text/html; charset=UTF-8"
  | "js" => "application/javascript; charset=UTF-8"
  | "css" => "text/css; charset=UTF-8"
  | "json" => "application/json; charset=UTF-8"
  | "png" => "image/png"
  | "jpg" => "image/jpeg"
  | "svg" => "image/svg+xml"
  | _ => "application/octet-stream"

/-- The static root's contents: relative file path to file bytes. -/
def lookupFs (fs : List (String × List Nat)) (p : String) : Option (List Nat) :=
  (fs.find? (fun f => f.1 == p)).map (fun f => f.2)

/-- express.static(root): GET and HEAD requests whose resolved path names
an existing file are answered with 200, the file's bytes (an empty body
for HEAD) and an inferred content type; anything else falls through to the
next handler. -/
def staticResolve (fs : List (String × List Nat)) (req : HttpRequest) : Option HttpResponse :=
  if req.method == "GET" || req.method == "HEAD" then
    match lookupFs fs (resolvePath req.path) with
    | some bs =>
        some { status := 200
             , headers := [("content-type", mimeOf (resolvePath req.path))]
             , body := if req.method == "HEAD" then [] else bs }
    | none => none
  else none

/-- Characters removed by JavaScript String.prototype.trim at both ends. -/
def trimChars (cs : List Char) : List Char :=
  ((cs.dropWhile Char.isWhitespace).reverse.dropWhile Char.isWhitespace).reverse

/-- JavaScript String.prototype.trim: whitespace removed from both ends. -/
def jsTrim (s : String) : String :=
  String.mk (trimChars s.data)

/-- The transformation the claim text describes: whitespace removed from
the trailing end only. Stated from the claim's words, to be compared with
the program's jsTrim. -/
def specTrailingTrim (s : String) : String :=
  String.mk ((s.data.reverse.dropWhile Char.isWhitespace).reverse)

/-- JavaScript template interpolation of the child's exit code, which is
null when the child was terminated by a signal. -/
def jsShowExit : Option Int → String
  | some n => toString n
  | none => "null"

/-- A string has no trailing whitespace. -/
def noTrailingWS (s : String) : Bool :=
  match s.data.getLast? with
  | some c => !c.isWhitespace
  | none => true

/-- JavaScript template interpolation of the PORT value. -/
def portShow : JsPort → String
  | JsPort.str s => s
  | JsPort.num n => toString n

/-- The spawn commands recorded in a trace. -/
def spawnedIn (t : List Event) : List (String × List String) :=
  t.filterMap (fun e =>
    match e with
    | Event.spawned c a => some (c, a)
    | _ => none)

/-- Number of spawn events in a trace. -/
def spawnCount (t : List Event) : Nat :=
  (spawnedIn t).length

/-- Every spawn event in the trace occurs after a listen-bound event. -/
def spawnsAfterBound (t : List Event) : Bool :=
  (t.foldl
    (fun st e =>
      match e with
      | Event.listenBound _ => (true, st.2)
      | Event.spawned _ _ => (st.1, st.2 && st.1)
      | _ => st)
    (false, true)).2

namespace ServerJs

/-- src/server.js line 8: const PORT = process.env.PORT || 3000. The
environment value is a string; the empty string is falsy in JavaScript,
so an unset or empty PORT yields the number 3000. -/
def PORT (env : Env) : JsPort :=
  match envGet env "PORT" with
  | some s => if s == "" then JsPort.num 3000 else JsPort.str s
  | none => JsPort.num 3000

/-- src/server.js line 10: const PYTHON_PORT = 8081. -/
def PYTHON_PORT : Nat := 8081

/-- src/server.js lines 19-21: the stdout data listener logs the chunk,
trimmed, behind the distinguishing tag. -/
def stdoutHandler (data : String) : List Event :=
  [Event.logLine LogLevel.info ("[Python STDOUT]: " ++ jsTrim data)]

/-- src/server.js lines 23-25: the stderr data listener logs the chunk,
trimmed, behind its tag via console.error. -/
def stderrHandler (data : String) : List Event :=
  [Event.logLine LogLevel.error ("[Python STDERR]: " ++ jsTrim data)]

/-- src/server.js lines 27-29: the close listener logs the exit code. -/
def closeHandler (code : Option Int) : List Event :=
  [Event.logLine LogLevel.info ("Python server process exited with code " ++ jsShowExit code)]

/-- src/server.js line 17: the argument vector passed to spawn. -/
def gunicornArgs : List String :=
  ["app:app", "--bind", "0.0.0.0:" ++ toString PYTHON_PORT]

/-- src/server.js lines 19-29: the three observers startPythonServer
attaches to the spawned child. -/
def pythonServerObservers : List ChildObserver :=
  [ ChildObserver.stdoutData stdoutHandler
  , ChildObserver.stderrData stderrHandler
  , ChildObserver.close closeHandler ]

/-- src/server.js line 33: the mount path of the proxy middleware. -/
def apiMountPath : String := "/api"

/-- src/server.js lines 33-36: the options given to createProxyMiddleware. -/
def apiProxyOptions : ProxyOptions :=
  { target := "http://localhost:" ++ toString PYTHON_PORT, changeOrigin := true }

/-- Request handling of the app: the proxy middleware is mounted first
(line 33), express.static(__dirname) second (line 39), and Express's final
handler answers 404 when both decline. The backend argument is the
behaviour of the spawned backend: none while it is unreachable, some f
when it is reachable and answers with f. -/
def dispatch (fs : List (String × List Nat)) (backend : Option (HttpRequest → HttpResponse))
    (req : HttpRequest) : HttpResponse :=
  if mountMatches apiMountPath req.path then
    match backend with
    | some b => b (hpmForward apiProxyOptions req)
    | none => proxyErrorResponse
  else
    match staticResolve fs req with
    | some r => r
    | none => express404 req

/-- Which handler produces the response for a request, following the same
middleware order as dispatch. -/
def handlerFor (fs : List (String × List Nat)) (req : HttpRequest) : Handled :=
  if mountMatches apiMountPath req.path then Handled.apiProxy
  else if (staticResolve fs req).isSome then Handled.staticFile
  else Handled.finalNotFound

/-- src/server.js lines 42-46: startup. app.listen(PORT, cb) either binds
the socket, logs the listening line and runs startPythonServer (which
logs its banner and spawns gunicorn), or, when the port is already in
use, the server's error event has no listener, so node raises the
EADDRINUSE error as an uncaught exception and the process exits with the
default non-zero code 1 without reaching the callback. -/
def startupTrace (env : Env) (portInUse : Bool) : List Event :=
  if portInUse then [Event.exited 1]
  else
    [ Event.listenBound (PORT env)
    , Event.logLine LogLevel.info
        ("Node.js wrapper server listening on port " ++ portShow (PORT env))
    , Event.logLine LogLevel.info "Starting Python Gunicorn server..."
    , Event.spawned "gunicorn" gunicornArgs ]

end ServerJs

namespace Part000

/-- src/unnamed/part_000 line 8: const PORT = process.env.PORT || 3000. -/
def PORT (env : Env) : JsPort :=
  match envGet env "PORT" with
  | some s => if s == "" then JsPort.num 3000 else JsPort.str s
  | none => JsPort.num 3000

/-- src/unnamed/part_000 line 10: const PYTHON_PORT = 8081. -/
def PYTHON_PORT : Nat := 8081

/-- src/unnamed/part_000 lines 19-21: the stdout data listener. -/
def stdoutHandler (data : String) : List Event :=
  [Event.logLine LogLevel.info ("[Python STDOUT]: " ++ jsTrim data)]

/-- src/unnamed/part_000 lines 23-25: the stderr data listener. -/
def stderrHandler (data : String) : List Event :=
  [Event.logLine LogLevel.error ("[Python STDERR]: " ++ jsTrim data)]

/-- src/unnamed/part_000 lines 27-29: the close listener. -/
def closeHandler (code : Option Int) : List Event :=
  [Event.logLine LogLevel.info ("Python server process exited with code " ++ jsShowExit code)]

/-- src/unnamed/part_000 line 17: the argument vector passed to spawn. -/
def gunicornArgs : List String :=
  ["app:app", "--bind", "0.0.0.0:" ++ toString PYTHON_PORT]

/-- src/unnamed/part_000 lines 19-29: the observers attached to the child. -/
def pythonServerObservers : List ChildObserver :=
  [ ChildObserver.stdoutData stdoutHandler
  , ChildObserver.stderrData stderrHandler
  , ChildObserver.close closeHandler ]

/-- src/unnamed/part_000 line 33: the mount path of the proxy middleware. -/
def apiMountPath : String := "/api"

/-- src/unnamed/part_000 lines 33-36: the createProxyMiddleware options. -/
def apiProxyOptions : ProxyOptions :=
  { target := "http://localhost:" ++ toString PYTHON_PORT, changeOrigin := true }

/-- src/unnamed/part_000 lines 33-40: request handling, proxy before static. -/
def dispatch (fs : List (String × List Nat)) (backend : Option (HttpRequest → HttpResponse))
    (req : HttpRequest) : HttpResponse :=
  if mountMatches apiMountPath req.path then
    match backend with
    | some b => b (hpmForward apiProxyOptions req)
    | none => proxyErrorResponse
  else
    match staticResolve fs req with
    | some r => r
    | none => express404 req

/-- Which handler produces the response, in part_000's middleware order. -/
def handlerFor (fs : List (String × List Nat)) (req : HttpRequest) : Handled :=
  if mountMatches apiMountPath req.path then Handled.apiProxy
  else if (staticResolve fs req).isSome then Handled.staticFile
  else Handled.finalNotFound

/-- src/unnamed/part_000 lines 42-46: startup, listen then spawn. -/
def startupTrace (env : Env) (portInUse : Bool) : List Event :=
  if portInUse then [Event.exited 1]
  else
    [ Event.listenBound (PORT env)
    , Event.logLine LogLevel.info
        ("Node.js wrapper server listening on port " ++ portShow (PORT env))
    , Event.logLine LogLevel.info "Starting Python Gunicorn server..."
    , Event.spawned "gunicorn" gunicornArgs ]

end Part000

/-- The header just set is the one found. -/
theorem find_in_setHeader : ∀ (hs : List (String × String)) (k v : String),
    (hs.filter (fun kv => !(kv.1 == k)) ++ [(k, v)]).find? (fun kv => kv.1 == k)
      = some (k, v)
  | [], k, v => by simp [List.find?]
  | a :: t, k, v => by
    cases h : a.1 == k with
    | true => simp [List.filter_cons, h, find_in_setHeader t k v]
    | false =>
      rw [List.filter_cons]
      simp only [h, Bool.not_false, if_true]
      rw [List.cons_append, List.find?]
      simp only [h]
      exact find_in_setHeader t k v

/-- Setting one header leaves lookups of other header names unchanged. -/
theorem find_setHeader_ne : ∀ (hs : List (String × String)) (k v j : String),
    (j == k) = false →
    (hs.filter (fun kv => !(kv.1 == k)) ++ [(k, v)]).find? (fun kv => kv.1 == j)
      = hs.find? (fun kv => kv.1 == j)
  | [], k, v, j, h => by
    have hkj : (k == j) = false :=
      beq_eq_false_iff_ne.mpr (Ne.symm (beq_eq_false_iff_ne.mp h))
    simp [List.find?, hkj]
  | a :: t, k, v, j, h => by
    cases ha : a.1 == k with
    | true =>
      have haj : (a.1 == j) = false := by
        have hak : a.1 = k := beq_iff_eq.mp ha
        exact beq_eq_false_iff_ne.mpr
          (hak ▸ Ne.symm (beq_eq_false_iff_ne.mp h))
      simpa [List.filter_cons, ha, List.find?, haj] using find_setHeader_ne t k v j h
    | false =>
      cases haj : a.1 == j with
      | true => simp [List.filter_cons, ha, List.find?, haj]
      | false =>
        simpa [List.filter_cons, ha, List.find?, haj] using find_setHeader_ne t k v j h

/-- headerGet after setHeader, same name: the new value. -/
theorem headerGet_setHeader_same (hs : List (String × String)) (k v : String) :
    headerGet (setHeader hs k v) k = some v := by
  unfold headerGet setHeader
  rw [find_in_setHeader]
  rfl

/-- headerGet after setHeader, different name: unchanged. -/
theorem headerGet_setHeader_other (hs : List (String × String)) (k v j : String)
    (h : (j == k) = false) :
    headerGet (setHeader hs k v) j = headerGet hs j := by
  unfold headerGet setHeader
  rw [find_setHeader_ne hs k v j h]

/-- The head of dropWhile never satisfies the dropped predicate. -/
theorem dropWhile_head_not (p : Char → Bool) : ∀ (l : List Char) (c : Char),
    (l.dropWhile p).head? = some c → p c = false
  | [], c => by simp [List.dropWhile]
  | a :: t, c => by
    cases h : p a with
    | true => simpa [List.dropWhile, h] using dropWhile_head_not p t c
    | false =>
      intro hc
      simp [List.dropWhile, h] at hc
      simpa [hc] using h

/-- A trimmed chunk never ends in whitespace. -/
theorem noTrailingWS_jsTrim (s : String) : noTrailingWS (jsTrim s) = true := by
  have key : ((s.data.dropWhile Char.isWhitespace).reverse.dropWhile
      Char.isWhitespace).reverse.getLast?
      = ((s.data.dropWhile Char.isWhitespace).reverse.dropWhile Char.isWhitespace).head? :=
    List.getLast?_reverse _
  show noTrailingWS (String.mk (trimChars s.data)) = true
  unfold noTrailingWS trimChars
  cases h : ((s.data.dropWhile Char.isWhitespace).reverse.dropWhile
      Char.isWhitespace).head? with
  | none =>
    simp only [String.data]
    rw [key, h]
  | some c =>
    simp only [String.data]
    rw [key, h]
    simpa using dropWhile_head_not Char.isWhitespace _ c h

/-- Trimming only removes characters from the two ends: the trimmed chunk
is a contiguous segment of the original, so interior line boundaries are
preserved. -/
theorem trimChars_segment (l : List Char) : trimChars l <:+: l := by
  have h1 : l.dropWhile Char.isWhitespace <:+ l :=
    ⟨l.takeWhile Char.isWhitespace, List.takeWhile_append_dropWhile Char.isWhitespace l⟩
  have hA : (l.dropWhile Char.isWhitespace).reverse.dropWhile Char.isWhitespace
      <:+ (l.dropWhile Char.isWhitespace).reverse :=
    ⟨(l.dropWhile Char.isWhitespace).reverse.takeWhile Char.isWhitespace,
      List.takeWhile_append_dropWhile Char.isWhitespace
        (l.dropWhile Char.isWhitespace).reverse⟩
  have h2 : trimChars l <+: l.dropWhile Char.isWhitespace := by
    unfold trimChars
    rw [← List.reverse_suffix]
    simpa using hA
  obtain ⟨u, hu⟩ := h2
  obtain ⟨s, hs⟩ := h1
  exact ⟨s, u, by rw [List.append_assoc, hu, hs]⟩

/-- String version of trimChars_segment. -/
theorem jsTrim_segment (s : String) : (jsTrim s).data <:+: s.data :=
  trimChars_segment s.data

/-- Claim C3: if the public port is already in use when the gateway starts,
the process terminates with a non-zero exit status (node's uncaught
EADDRINUSE exception, default exit code 1), it does not retry, and no
backend spawn event ever occurs. -/
theorem bind_failure_no_spawn (env : Env) :
    ServerJs.startupTrace env true = [Event.exited 1] ∧
    (∀ n, Event.exited n ∈ ServerJs.startupTrace env true → n ≠ 0) ∧
    (∀ c a, Event.spawned c a ∉ ServerJs.startupTrace env true) := by
  refine ⟨rfl, ?_, ?_⟩
  · intro n hn
    simp [ServerJs.startupTrace] at hn
    omega
  · intro c a hca
    simp [ServerJs.startupTrace] at hca

/-- Claim C7: on a successful bind, exactly one spawn event occurs, and it
occurs only after the listen-bound event; on a failed bind no spawn occurs;
and none of the three child observers (in particular the close observer
that fires when the backend crashes) ever produces a spawn event, so no
second backend instance is ever started and there is no automatic respawn. -/
theorem single_spawn_after_bind (env : Env) :
    spawnCount (ServerJs.startupTrace env false) = 1 ∧
    spawnsAfterBound (ServerJs.startupTrace env false) = true ∧
    spawnCount (ServerJs.startupTrace env true) = 0 ∧
    (∀ d, spawnCount (ServerJs.stdoutHandler d) = 0) ∧
    (∀ d, spawnCount (ServerJs.stderrHandler d) = 0) ∧
    (∀ c, spawnCount (ServerJs.closeHandler c) = 0) :=
  ⟨rfl, rfl, rfl, fun _ => rfl, fun _ => rfl, fun _ => rfl⟩

/-- Claim C5: the listening port is the PORT environment value when it is
set and non-empty, and 3000 when PORT is unset or empty; the bound socket
in the startup trace uses exactly this port. -/
theorem port_selection (env : Env) :
    (∀ s, envGet env "PORT" = some s → s ≠ "" → ServerJs.PORT env = JsPort.str s) ∧
    (envGet env "PORT" = none → ServerJs.PORT env = JsPort.num 3000) ∧
    (envGet env "PORT" = some "" → ServerJs.PORT env = JsPort.num 3000) ∧
    Event.listenBound (ServerJs.PORT env) ∈ ServerJs.startupTrace env false := by
  refine ⟨?_, ?_, ?_, ?_⟩
  · intro s hs hne
    simp [ServerJs.PORT, hs, hne]
  · intro h
    simp [ServerJs.PORT, h]
  · intro h
    simp [ServerJs.PORT, h]
  · simp [ServerJs.startupTrace]

/-- Claim C5 witness: with PORT set to "8080" the gateway binds "8080";
with PORT unset or empty it binds 3000. -/
theorem port_selection_witness :
    ServerJs.PORT [("PORT", "8080")] = JsPort.str "8080" ∧
    ServerJs.PORT [] = JsPort.num 3000 ∧
    ServerJs.PORT [("PORT", "")] = JsPort.num 3000 :=
  ⟨(port_selection [("PORT", "8080")]).1 "8080" (by decide) (by decide),
   (port_selection []).2.1 (by decide),
   (port_selection [("PORT", "")]).2.2.1 (by decide)⟩

/-- Claim C6: the backend is always spawned as gunicorn with the explicit
bind argument for the fixed internal port 8081, and two parent
environments that agree outside PORT (in particular, that differ only in
PORT) produce identical spawn commands and arguments. -/
theorem spawn_args_env_independent (e1 e2 : Env)
    (_h : ∀ k, k ≠ "PORT" → envGet e1 k = envGet e2 k) :
    spawnedIn (ServerJs.startupTrace e1 false) = spawnedIn (ServerJs.startupTrace e2 false) ∧
    spawnedIn (ServerJs.startupTrace e1 false)
      = [("gunicorn", ["app:app", "--bind", "0.0.0.0:" ++ toString ServerJs.PYTHON_PORT])] ∧
    "0.0.0.0:" ++ toString ServerJs.PYTHON_PORT = "0.0.0.0:8081" :=
  ⟨rfl, rfl, by decide⟩

/-- Claim C6 witness: concrete environments instantiating the theorem. -/
theorem spawn_args_env_independent_witness :
    spawnedIn (ServerJs.startupTrace [("PORT", "9999")] false)
      = [("gunicorn", ["app:app", "--bind", "0.0.0.0:" ++ toString ServerJs.PYTHON_PORT])] :=
  (spawn_args_env_independent [("PORT", "9999")] [("PORT", "9999")] (fun _ _ => rfl)).2.1

/-- Claim C1 counterexample: the path "/apidocs" begins with the characters
"/api", the backend is reachable and answers every request with a fixed
200 response, yet the gateway does not return the backend's response: the
Express mount "/api" requires a path-segment boundary after the mount, so
"/apidocs" is handled by the static middleware and yields a 404. -/
theorem api_literal_reading_cex :
    strBeginsWith "/api" "/apidocs" = true ∧
    ServerJs.dispatch []
        (some (fun _ => { status := 200, headers := [], body := [42] }))
        { method := "GET", path := "/apidocs", query := "", headers := [], body := [] }
      ≠ { status := 200, headers := [], body := [42] } ∧
    (ServerJs.dispatch []
        (some (fun _ => { status := 200, headers := [], body := [42] }))
        { method := "GET", path := "/apidocs", query := "", headers := [], body := [] }).status
      = 404 := by
  exact ⟨by decide, by decide, by decide⟩

/-- Claim C1 (amended): for every request whose path matches the /api
mount (the path is /api, or /api followed by a path separator, compared
case-insensitively), when the backend is reachable the gateway hands the
backend a request with the same method, path, query string and body, with
only the host header rewritten to the target host localhost:8081, and
returns the backend's response unchanged (status, headers and body). -/
theorem api_relay_transparent (fs : List (String × List Nat))
    (b : HttpRequest → HttpResponse) (req : HttpRequest)
    (h : mountMatches ServerJs.apiMountPath req.path = true) :
    ServerJs.dispatch fs (some b) req = b (hpmForward ServerJs.apiProxyOptions req) ∧
    (hpmForward ServerJs.apiProxyOptions req).method = req.method ∧
    (hpmForward ServerJs.apiProxyOptions req).path = req.path ∧
    (hpmForward ServerJs.apiProxyOptions req).query = req.query ∧
    (hpmForward ServerJs.apiProxyOptions req).body = req.body ∧
    headerGet (hpmForward ServerJs.apiProxyOptions req).headers "host"
      = some "localhost:8081" ∧
    (∀ k, (k == "host") = false →
      headerGet (hpmForward ServerJs.apiProxyOptions req).headers k
        = headerGet req.headers k) ∧
    ServerJs.apiProxyOptions.target = "http://localhost:8081" ∧
    ServerJs.apiProxyOptions.changeOrigin = true := by
  refine ⟨?_, rfl, rfl, rfl, rfl, ?_, ?_, by decide, rfl⟩
  · simp [ServerJs.dispatch, h]
  · show headerGet (setHeader req.headers "host" (urlHost ServerJs.apiProxyOptions.target))
        "host" = some "localhost:8081"
    rw [headerGet_setHeader_same]
    decide
  · intro k hk
    show headerGet (setHeader req.headers "host" (urlHost ServerJs.apiProxyOptions.target)) k
        = headerGet req.headers k
    exact headerGet_setHeader_other req.headers "host" (urlHost ServerJs.apiProxyOptions.target)
      k hk

/-- Claim C1 witness: a POST to /api/chat with the backend reachable is
answered by the backend's own response to the host-rewritten request. -/
theorem api_relay_transparent_witness :
    ServerJs.dispatch []
        (some (fun _ => { status := 201, headers := [], body := [7] }))
        { method := "POST", path := "/api/chat", query := "q=1"
        , headers := [("host", "example.com")], body := [1, 2] }
      = (fun _ => ({ status := 201, headers := [], body := [7] } : HttpResponse))
          (hpmForward ServerJs.apiProxyOptions
            { method := "POST", path := "/api/chat", query := "q=1"
            , headers := [("host", "example.com")], body := [1, 2] }) :=
  (api_relay_transparent []
    (fun _ => { status := 201, headers := [], body := [7] })
    { method := "POST", path := "/api/chat", query := "q=1"
    , headers := [("host", "example.com")], body := [1, 2] }
    (by decide)).1

/-- Claim C4: a request matching the /api mount issued while the backend is
unreachable is answered immediately with the proxy's gateway-error
response, whose status 504 lies in the 5xx gateway-error class; it is a
definite response, not a hang, retry or queueing. -/
theorem backend_unreachable_gateway_error (fs : List (String × List Nat))
    (req : HttpRequest)
    (h : mountMatches ServerJs.apiMountPath req.path = true) :
    ServerJs.dispatch fs none req = proxyErrorResponse ∧
    proxyErrorResponse.status = 504 ∧
    502 ≤ proxyErrorResponse.status ∧ proxyErrorResponse.status ≤ 504 := by
  refine ⟨?_, rfl, by decide, by decide⟩
  simp [ServerJs.dispatch, h]

/-- Claim C4 witness: GET /api/voices with no backend running yields the
gateway-error response. -/
theorem backend_unreachable_gateway_error_witness :
    ServerJs.dispatch [] none
        { method := "GET", path := "/api/voices", query := "", headers := [], body := [] }
      = proxyErrorResponse ∧
    proxyErrorResponse.status = 504 ∧
    502 ≤ proxyErrorResponse.status ∧ proxyErrorResponse.status ≤ 504 :=
  backend_unreachable_gateway_error []
    { method := "GET", path := "/api/voices", query := "", headers := [], body := [] }
    (by decide)

/-- Claim C2 counterexample: a GET for /missing-page while index.html
exists in the static root does not return the index document: the program
registers no single-page-application fallback route, so Express's final
handler answers 404. -/
theorem spa_fallback_cex :
    lookupFs [("index.html", [1, 2, 3])] "index.html" = some [1, 2, 3] ∧
    (ServerJs.dispatch [("index.html", [1, 2, 3])] none
        { method := "GET", path := "/missing-page", query := "", headers := [], body := [] }).status
      = 404 ∧
    (ServerJs.dispatch [("index.html", [1, 2, 3])] none
        { method := "GET", path := "/missing-page", query := "", headers := [], body := [] }).body
      ≠ [1, 2, 3] := by
  exact ⟨by decide, by decide, by decide⟩

/-- Claim C2 (amended): for every request whose path does not match the
/api mount: a GET whose resolved path (a trailing slash, including the
bare "/", resolves to the directory's index.html) names an existing file
under the static root is answered 200 with that file's exact bytes and an
inferred content type; a HEAD likewise but with an empty body; when the
resolved path names no file, or the method is neither GET nor HEAD, the
response is Express's 404 not-found response — there is no
single-page-application fallback to the index document. -/
theorem static_resolution (fs : List (String × List Nat))
    (backend : Option (HttpRequest → HttpResponse)) (req : HttpRequest)
    (h : mountMatches ServerJs.apiMountPath req.path = false) :
    (∀ bs, req.method = "GET" → lookupFs fs (resolvePath req.path) = some bs →
      ServerJs.dispatch fs backend req
        = { status := 200
          , headers := [("content-type", mimeOf (resolvePath req.path))]
          , body := bs }) ∧
    (∀ bs, req.method = "HEAD" → lookupFs fs (resolvePath req.path) = some bs →
      ServerJs.dispatch fs backend req
        = { status := 200
          , headers := [("content-type", mimeOf (resolvePath req.path))]
          , body := [] }) ∧
    (lookupFs fs (resolvePath req.path) = none →
      ServerJs.dispatch fs backend req = express404 req) ∧
    (req.method ≠ "GET" → req.method ≠ "HEAD" →
      ServerJs.dispatch fs backend req = express404 req) ∧
    (express404 req).status = 404 := by
  refine ⟨?_, ?_, ?_, ?_, rfl⟩
  · intro bs hm hl
    simp [ServerJs.dispatch, h, staticResolve, hm, hl]
  · intro bs hm hl
    simp [ServerJs.dispatch, h, staticResolve, hm, hl]
  · intro hl
    simp [ServerJs.dispatch, h, staticResolve, hl]
  · intro h1 h2
    simp [ServerJs.dispatch, h, staticResolve, h1, h2]

/-- Claim C2 witness: GET / with index.html present returns the index
document's bytes with the html content type. -/
theorem static_resolution_witness :
    ServerJs.dispatch [("index.html", [9, 8])] none
        { method := "GET", path := "/", query := "", headers := [], body := [] }
      = { status := 200
        , headers := [("content-type", mimeOf (resolvePath "/"))]
        , body := [9, 8] } :=
  (static_resolution [("index.html", [9, 8])] none
    { method := "GET", path := "/", query := "", headers := [], body := [] }
    (by decide)).1 [9, 8] rfl (by decide)

/-- Claim C9 counterexample: the path "/apifoo" begins with the characters
"/api", yet it is handled by the static middleware, not the proxy: with a
file named apifoo in the static root the gateway serves that file. -/
theorem api_shadow_cex :
    strBeginsWith "/api" "/apifoo" = true ∧
    ServerJs.handlerFor [("apifoo", [7])]
        { method := "GET", path := "/apifoo", query := "", headers := [], body := [] }
      = Handled.staticFile ∧
    ServerJs.dispatch [("apifoo", [7])] none
        { method := "GET", path := "/apifoo", query := "", headers := [], body := [] }
      = { status := 200
        , headers := [("content-type", mimeOf (resolvePath "/apifoo"))]
        , body := [7] } := by
  exact ⟨by decide, by decide, by decide⟩

/-- Claim C9 (amended): because the proxy middleware is registered before
the static middleware, every request whose path matches the /api mount
(the path is /api, or /api followed by a path separator, compared
case-insensitively) is dispatched to the reverse proxy and never reaches
the static handler, whatever files exist under the static root; a path
that merely begins with the characters /api without a segment boundary is
not proxied. -/
theorem api_shadows_static (fs : List (String × List Nat)) (req : HttpRequest)
    (h : mountMatches ServerJs.apiMountPath req.path = true) :
    ServerJs.handlerFor fs req = Handled.apiProxy ∧
    ServerJs.handlerFor fs req ≠ Handled.staticFile ∧
    (∀ b, ServerJs.dispatch fs (some b) req = b (hpmForward ServerJs.apiProxyOptions req)) ∧
    ServerJs.dispatch fs none req = proxyErrorResponse := by
  refine ⟨?_, ?_, ?_, ?_⟩
  · simp [ServerJs.handlerFor, h]
  · simp [ServerJs.handlerFor, h]
  · intro b
    simp [ServerJs.dispatch, h]
  · simp [ServerJs.dispatch, h]

/-- Claim C9 witness: /api/st.txt is proxied even though a file named
api/st.txt exists under the static root. -/
theorem api_shadows_static_witness :
    lookupFs [("api/st.txt", [5])] (resolvePath "/api/st.txt") = some [5] ∧
    ServerJs.handlerFor [("api/st.txt", [5])]
        { method := "GET", path := "/api/st.txt", query := "", headers := [], body := [] }
      = Handled.apiProxy :=
  ⟨by decide,
   (api_shadows_static [("api/st.txt", [5])]
     { method := "GET", path := "/api/st.txt", query := "", headers := [], body := [] }
     (by decide)).1⟩

/-- Claim C8 counterexample: a stdout chunk with leading whitespace is
re-emitted with the leading whitespace removed as well — JavaScript's
trim strips both ends — so the logged line differs from the chunk merely
trimmed of trailing whitespace. -/
theorem observer_trailing_trim_cex :
    specTrailingTrim "  ready" = "  ready" ∧
    jsTrim "  ready" = "ready" ∧
    ServerJs.stdoutHandler "  ready"
      ≠ [Event.logLine LogLevel.info ("[Python STDOUT]: " ++ specTrailingTrim "  ready")] := by
  exact ⟨by decide, by decide, by decide⟩

/-- Claim C8 (amended): exactly three observers are attached to the
spawned backend; each stdout chunk is re-emitted once at info level behind
the distinguishing tag, trimmed of leading and trailing whitespace (the
trimmed text is a contiguous segment of the chunk, so interior line
boundaries survive, and it never ends in whitespace); each stderr chunk is
re-emitted the same way at error level; and the close observer logs the
child's exit code (the JavaScript null when the child died by signal). -/
theorem backend_observers :
    ServerJs.pythonServerObservers.length = 3 ∧
    ServerJs.pythonServerObservers
      = [ ChildObserver.stdoutData ServerJs.stdoutHandler
        , ChildObserver.stderrData ServerJs.stderrHandler
        , ChildObserver.close ServerJs.closeHandler ] ∧
    (∀ d, ServerJs.stdoutHandler d
      = [Event.logLine LogLevel.info ("[Python STDOUT]: " ++ jsTrim d)]) ∧
    (∀ d, ServerJs.stderrHandler d
      = [Event.logLine LogLevel.error ("[Python STDERR]: " ++ jsTrim d)]) ∧
    (∀ c, ServerJs.closeHandler c
      = [Event.logLine LogLevel.info
          ("Python server process exited with code " ++ jsShowExit c)]) ∧
    (∀ d, noTrailingWS (jsTrim d) = true) ∧
    (∀ d, (jsTrim d).data <:+: d.data) :=
  ⟨rfl, rfl, fun _ => rfl, fun _ => rfl, fun _ => rfl,
   fun d => noTrailingWS_jsTrim d, fun d => jsTrim_segment d⟩

/-- Claim C10: src/server.js (lines 1-46) and src/unnamed/part_000
(lines 1-46) are the same program text, so their embeddings are the same
definitions: every constant, observer, option and behaviour function of
the one equals that of the other, hence the two produce the same
observable behaviour on every input. -/
theorem sources_equivalent :
    ServerJs.PORT = Part000.PORT ∧
    ServerJs.PYTHON_PORT = Part000.PYTHON_PORT ∧
    ServerJs.gunicornArgs = Part000.gunicornArgs ∧
    ServerJs.pythonServerObservers = Part000.pythonServerObservers ∧
    ServerJs.apiMountPath = Part000.apiMountPath ∧
    ServerJs.apiProxyOptions = Part000.apiProxyOptions ∧
    ServerJs.dispatch = Part000.dispatch ∧
    ServerJs.handlerFor = Part000.handlerFor ∧
    ServerJs.startupTrace = Part000.startupTrace :=
  ⟨rfl, rfl, rfl, rfl, rfl, rfl, rfl, rfl, rfl⟩
